import Mathlib

/-!
Verification of the Allwinner sunxi DWMAC glue layer
(drivers/net/ethernet/stmicro/stmmac/dwmac-sunxi.c).

The driver state (`struct sunxi_priv_data`) together with the observable
state of its three collaborator resources (TX clock, optional PHY
regulator, optional mode-select register field) is embedded as the
structure `GmacState`.  The clock and regulator primitives consumed from
the kernel are modelled as explicit state transformers whose success or
failure is injected through a `ClkEnv` environment, mirroring the fact
that every primitive may fail and returns an `int` error code; the driver
code decides which of those return values it inspects.
-/

namespace DwmacSunxi

/-- Modelled from the spec: the PHY interface mode enumeration
(`phy_interface_t` from linux/phy.h, which is not under src/).  Only the
variants this driver can meet are carried: the RGMII family, the MII/GMII
family, and `NA` (the default when the hardware description names no
mode, treated as MII-family). -/
inductive phy_interface_t where
  | PHY_INTERFACE_MODE_NA
  | PHY_INTERFACE_MODE_MII
  | PHY_INTERFACE_MODE_GMII
  | PHY_INTERFACE_MODE_RMII
  | PHY_INTERFACE_MODE_RGMII
  | PHY_INTERFACE_MODE_RGMII_ID
  | PHY_INTERFACE_MODE_RGMII_RXID
  | PHY_INTERFACE_MODE_RGMII_TXID
  deriving DecidableEq, Repr

open phy_interface_t

/-- Modelled from the spec: `phy_interface_mode_is_rgmii` (linux/phy.h,
not under src/) — true exactly on the four RGMII-family variants. -/
def phy_interface_mode_is_rgmii : phy_interface_t → Bool
  | PHY_INTERFACE_MODE_RGMII => true
  | PHY_INTERFACE_MODE_RGMII_ID => true
  | PHY_INTERFACE_MODE_RGMII_RXID => true
  | PHY_INTERFACE_MODE_RGMII_TXID => true
  | _ => false

/-- SUN7I_GMAC_GMII_RGMII_RATE: nominal TX clock rate for RGMII/GMII. -/
def SUN7I_GMAC_GMII_RGMII_RATE : Nat := 125000000

/-- SUN7I_GMAC_MII_RATE: nominal TX clock rate for MII. -/
def SUN7I_GMAC_MII_RATE : Nat := 25000000

/-- SUN7I_A20_RGMII_CLK: mode-select register value for RGMII. -/
def SUN7I_A20_RGMII_CLK : Nat := (3 <<< 1) ||| (1 <<< 12)

/-- SUN7I_A20_MII_CLK: mode-select register value for MII. -/
def SUN7I_A20_MII_CLK : Nat := 1 <<< 12

/-- The device instance state: the fields of `struct sunxi_priv_data`
(`interface`, `clk_enabled`, the `tx_clk` handle and the optional
`regulator` and `regmap_field` handles, the latter two modelled by their
presence) together with the observable collaborator state this driver
drives: the TX clock's rate / prepared / gated state, the current content
of the mode-select register field, and whether the regulator is enabled.
`clk_enabled` is an `int` used as a boolean flag in the C code. -/
structure GmacState where
  interface : phy_interface_t
  clk_enabled : Bool
  tx_clk : Nat
  regulator : Option Unit
  regmap_field : Option Unit
  clk_rate : Nat
  clk_prepared : Bool
  clk_on : Bool
  field_value : Nat
  regulator_on : Bool
  deriving DecidableEq, Repr

/-- Modelled from the spec: the outcome environment for the fallible
collaborator primitives (§6: clock `set_rate`/`prepare`/`enable` and
regulator `enable` "all may fail"; their implementations are not under
src/).  A field holds the `int` the corresponding primitive returns when
called: `0` is success, a negative errno is failure. -/
structure ClkEnv where
  regulator_enable_ret : Int
  clk_set_rate_ret : Int
  clk_prepare_ret : Int
  clk_enable_ret : Int
  deriving DecidableEq, Repr

/-- ClkEnv.ok: the environment in which every primitive succeeds. -/
def ClkEnv.ok : ClkEnv := ⟨0, 0, 0, 0⟩

/-- Modelled from the spec: `clk_set_rate` — on success the clock's
nominal rate becomes `hz`, on failure the rate is unchanged. -/
def clk_set_rate (env : ClkEnv) (s : GmacState) (hz : Nat) : Int × GmacState :=
  if env.clk_set_rate_ret = 0 then (0, { s with clk_rate := hz })
  else (env.clk_set_rate_ret, s)

/-- Modelled from the spec: `clk_prepare` — slow half of clock
activation; on success the clock becomes prepared. -/
def clk_prepare (env : ClkEnv) (s : GmacState) : Int × GmacState :=
  if env.clk_prepare_ret = 0 then (0, { s with clk_prepared := true })
  else (env.clk_prepare_ret, s)

/-- Modelled from the spec: `clk_enable` — fast gating half; on success
the clock gate opens. -/
def clk_enable (env : ClkEnv) (s : GmacState) : Int × GmacState :=
  if env.clk_enable_ret = 0 then (0, { s with clk_on := true })
  else (env.clk_enable_ret, s)

/-- Modelled from the spec: `clk_disable` — closes the clock gate
(never fails). -/
def clk_disable (s : GmacState) : GmacState :=
  { s with clk_on := false }

/-- Modelled from the spec: `clk_unprepare` — reverses `clk_prepare`
(never fails). -/
def clk_unprepare (s : GmacState) : GmacState :=
  { s with clk_prepared := false }

/-- Modelled from the spec: `clk_prepare_enable` — prepare and enable as
one step; if the enable half fails the prepare half is undone before the
error is returned. -/
def clk_prepare_enable (env : ClkEnv) (s : GmacState) : Int × GmacState :=
  let r1 := clk_prepare env s
  if r1.1 ≠ 0 then r1
  else
    let r2 := clk_enable env r1.2
    if r2.1 ≠ 0 then (r2.1, clk_unprepare r2.2) else r2

/-- Modelled from the spec: `regulator_enable` — on success the
regulator is powered on. -/
def regulator_enable (env : ClkEnv) (s : GmacState) : Int × GmacState :=
  if env.regulator_enable_ret = 0 then (0, { s with regulator_on := true })
  else (env.regulator_enable_ret, s)

/-- Modelled from the spec: `regulator_disable` (never fails for this
design's purposes). -/
def regulator_disable (s : GmacState) : GmacState :=
  { s with regulator_on := false }

/-- Modelled from the spec: `regmap_field_write` — writes the value into
the bound mode-select register field; treated as non-failing (§6). -/
def regmap_field_write (s : GmacState) (v : Nat) : GmacState :=
  { s with field_value := v }

/-- The body of `sun7i_gmac_init` after the optional regulator has been
enabled (everything from the `if (gmac->regmap_field)` test on),
translated branch for branch from the C.  Returns the C `int` result and
the post-state. -/
def sun7i_gmac_init_body (env : ClkEnv) (gmac : GmacState) : Int × GmacState :=
  if gmac.regmap_field.isSome then
    if phy_interface_mode_is_rgmii gmac.interface then
      clk_prepare_enable env (regmap_field_write gmac SUN7I_A20_RGMII_CLK)
    else
      clk_enable env (regmap_field_write gmac SUN7I_A20_MII_CLK)
  else
    -- Legacy devicetree support
    if phy_interface_mode_is_rgmii gmac.interface then
      let s1 := (clk_set_rate env gmac SUN7I_GMAC_GMII_RGMII_RATE).2
      let s2 := (clk_prepare_enable env s1).2
      (0, { s2 with clk_enabled := true })
    else
      let s1 := (clk_set_rate env gmac SUN7I_GMAC_MII_RATE).2
      let r := clk_prepare env s1
      (r.1, r.2)

/-- `sun7i_gmac_init`: enable the optional regulator first (propagating
its failure), then run the path-dependent clock/register setup. -/
def sun7i_gmac_init (env : ClkEnv) (gmac : GmacState) : Int × GmacState :=
  if gmac.regulator.isSome then
    let r := regulator_enable env gmac
    if r.1 ≠ 0 then r else sun7i_gmac_init_body env r.2
  else
    sun7i_gmac_init_body env gmac

/-- The collaborator calls `sun7i_gmac_exit` issues, in order, recorded
so that call-ordering properties (regulator disabled last) are visible. -/
inductive GmacEvent where
  | ev_regmap_field_write (v : Nat)
  | ev_clk_disable
  | ev_clk_unprepare
  | ev_regulator_disable
  deriving DecidableEq, Repr

/-- `sun7i_gmac_exit`: Modern path writes 0 to the mode-select field and
disables the clock; Legacy path disables the clock only when the
`clk_enabled` flag is set (clearing the flag); both then unprepare the
clock, and the regulator, when present, is disabled last.  The result
pairs the post-state with the ordered list of collaborator calls made. -/
def sun7i_gmac_exit (gmac : GmacState) : GmacState × List GmacEvent :=
  let r1 :=
    if gmac.regmap_field.isSome then
      (clk_disable (regmap_field_write gmac 0),
       [GmacEvent.ev_regmap_field_write 0, GmacEvent.ev_clk_disable])
    else
      -- Legacy devicetree support
      if gmac.clk_enabled then
        ({ clk_disable gmac with clk_enabled := false }, [GmacEvent.ev_clk_disable])
      else (gmac, [])
  let s2 := clk_unprepare r1.1
  if s2.regulator.isSome then
    (regulator_disable s2, r1.2 ++ [GmacEvent.ev_clk_unprepare, GmacEvent.ev_regulator_disable])
  else
    (s2, r1.2 ++ [GmacEvent.ev_clk_unprepare])

/-- `sun7i_fix_speed`: Modern path disables and unprepares the clock,
writes the RGMII value when `speed == 1000` and the MII value otherwise,
then re-prepares+enables.  Legacy path returns immediately unless the
interface is exactly GMII; for GMII it disables the clock when the flag
is set (clearing it), unprepares, then either rate 125 MHz +
prepare+enable + flag set (speed 1000) or rate 25 MHz + prepare only.
All clock-call results are ignored, as in the C (`void` function). -/
def sun7i_fix_speed (env : ClkEnv) (gmac : GmacState) (speed : Nat) : GmacState :=
  if gmac.regmap_field.isSome then
    let s1 := clk_unprepare (clk_disable gmac)
    let s2 :=
      if speed = 1000 then regmap_field_write s1 SUN7I_A20_RGMII_CLK
      else regmap_field_write s1 SUN7I_A20_MII_CLK
    (clk_prepare_enable env s2).2
  else
    -- Legacy devicetree support:
    -- only GMII mode requires us to reconfigure the clock lines
    if gmac.interface ≠ PHY_INTERFACE_MODE_GMII then gmac
    else
      let s1 :=
        if gmac.clk_enabled then { clk_disable gmac with clk_enabled := false }
        else gmac
      let s2 := clk_unprepare s1
      if speed = 1000 then
        let s3 := (clk_set_rate env s2 SUN7I_GMAC_GMII_RGMII_RATE).2
        let s4 := (clk_prepare_enable env s3).2
        { s4 with clk_enabled := true }
      else
        let s3 := (clk_set_rate env s2 SUN7I_GMAC_MII_RATE).2
        (clk_prepare env s3).2

/-! Discovery (probe-time) model.  The hardware description and the
results of the collaborator lookups involved in probing are gathered in
`ProbeEnv`; discovery itself is the portion of `sun7i_gmac_probe` from
`of_get_phy_mode` through the optional-regulator acquisition.  All
handles are device-managed (`devm_*`) in the C, so a failing probe
leaves no acquired handle behind; accordingly a failed discovery returns
only the error. -/

/-- ENODEV errno. -/
def ENODEV : Int := 19

/-- EINVAL errno. -/
def EINVAL : Int := 22

/-- EPROBE_DEFER errno: the retryable, deferred probe error. -/
def EPROBE_DEFER : Int := 517

/-- The hardware-description facts and collaborator-lookup outcomes
consulted during probe.  `*_ret` fields are the `int` results of the
corresponding lookups (`0` = success, negative errno = failure);
`fallback_lookup_ret` is the result of `syscon_regmap_lookup_by_phandle`,
whose implementation is outside this module and does not consult
`syscon_dev_found`. -/
structure ProbeEnv where
  phy_mode_ret : Int
  phy_mode : phy_interface_t
  has_syscon_phandle : Bool
  syscon_dev_found : Bool
  syscon_dev_regmap : Bool
  fallback_lookup_ret : Int
  clk_get_modern_ret : Int
  clk_get_legacy_ret : Int
  field_alloc_ret : Int
  regulator_get_ret : Int
  deriving DecidableEq, Repr

/-- `sun7i_gmac_get_syscon_from_dev`: `-ENODEV` when the hardware
description has no syscon phandle, `-EPROBE_DEFER` when the owning
platform device is not found (not yet probed), `-EINVAL` when that
device exposes no regmap, `0` when the regmap is resolved. -/
def sun7i_gmac_get_syscon_from_dev (env : ProbeEnv) : Int :=
  if env.has_syscon_phandle = false then -ENODEV
  else if env.syscon_dev_found = false then -EPROBE_DEFER
  else if env.syscon_dev_regmap = false then -EINVAL
  else 0

/-- The fresh `sunxi_priv_data` produced by a successful syscon-path or
legacy-path setup, before the regulator step: `devm_kzalloc` zeroes the
flag, the clock is not yet touched, and the field content is whatever
the shared register held (kept abstract as 0 here only for the unwritten
hardware fields). -/
def freshState (mode : phy_interface_t) (modern : Bool) : GmacState :=
  { interface := mode
    clk_enabled := false
    tx_clk := 0
    regulator := none
    regmap_field := if modern then some () else none
    clk_rate := 0
    clk_prepared := false
    clk_on := false
    field_value := 0
    regulator_on := false }

/-- The optional-regulator acquisition tail of `sun7i_gmac_probe`:
success binds the handle; `-EPROBE_DEFER` aborts the probe with the
deferred error; any other failure means "no regulator found" and is not
an error. -/
def sun7i_gmac_probe_regulator (env : ProbeEnv) (s : GmacState) : Except Int GmacState :=
  if env.regulator_get_ret = 0 then .ok { s with regulator := some () }
  else if env.regulator_get_ret = -EPROBE_DEFER then .error (-EPROBE_DEFER)
  else .ok { s with regulator := none }

/-- The discovery portion of `sun7i_gmac_probe`: read the PHY mode
(`-ENODEV` tolerated, mode defaults to NA), then either the syscon path
(named clock "stmmaceth", `sun7i_gmac_get_syscon_from_dev` with a
fallback to `syscon_regmap_lookup_by_phandle` when it errs, then the
regmap-field binding) or the legacy path (clock "allwinner_gmac_tx"),
then the optional regulator. -/
def sun7i_gmac_discover (env : ProbeEnv) : Except Int GmacState :=
  if env.phy_mode_ret ≠ 0 ∧ env.phy_mode_ret ≠ -ENODEV then .error env.phy_mode_ret
  else
    let mode := if env.phy_mode_ret = 0 then env.phy_mode else PHY_INTERFACE_MODE_NA
    if env.has_syscon_phandle then
      if env.clk_get_modern_ret ≠ 0 then .error env.clk_get_modern_ret
      else
        let r0 := sun7i_gmac_get_syscon_from_dev env
        let r1 := if r0 ≠ 0 then env.fallback_lookup_ret else 0
        if r1 ≠ 0 then .error r1
        else if env.field_alloc_ret ≠ 0 then .error env.field_alloc_ret
        else sun7i_gmac_probe_regulator env (freshState mode true)
    else
      if env.clk_get_legacy_ret ≠ 0 then .error env.clk_get_legacy_ret
      else sun7i_gmac_probe_regulator env (freshState mode false)

/-- An operation the surrounding framework may invoke on a discovered
state: `init`, `fix_speed` with a speed, or `exit`. -/
inductive GmacOp where
  | op_init
  | op_fix (speed : Nat)
  | op_exit
  deriving DecidableEq, Repr

/-- Run one framework operation on the state (discarding the `int`
result of `init` and the call trace of `exit`, which do not affect the
state). -/
def runOp (env : ClkEnv) (s : GmacState) : GmacOp → GmacState
  | GmacOp.op_init => (sun7i_gmac_init env s).2
  | GmacOp.op_fix v => sun7i_fix_speed env s v
  | GmacOp.op_exit => (sun7i_gmac_exit s).1

/-- Run a sequence of framework operations left to right. -/
def runOps (env : ClkEnv) (ops : List GmacOp) (s : GmacState) : GmacState :=
  ops.foldl (runOp env) s

/-- The tracked-state invariant established by discovery and maintained
by init and fix_speed: on the Modern path the Legacy flag stays clear,
on the Legacy path the flag dominates the clock gate, and with no
regulator handle the regulator stays off. -/
def GmacInv (s : GmacState) : Prop :=
  (s.regmap_field.isSome = true → s.clk_enabled = false) ∧
  (s.regmap_field = none → s.clk_on = true → s.clk_enabled = true) ∧
  (s.regulator = none → s.regulator_on = false)

/-! Supporting lemmas shared by the claim proofs. -/

set_option maxRecDepth 8000 in
set_option maxHeartbeats 2000000 in
/-- Init never modifies the discovery-time fields of the state. -/
theorem sun7i_gmac_init_frame (env : ClkEnv) (s : GmacState) :
    (sun7i_gmac_init env s).2.interface = s.interface ∧
    (sun7i_gmac_init env s).2.tx_clk = s.tx_clk ∧
    (sun7i_gmac_init env s).2.regulator = s.regulator ∧
    (sun7i_gmac_init env s).2.regmap_field = s.regmap_field := by
  suffices key : ∀ ri so, sun7i_gmac_init env s = (ri, so) →
      so.interface = s.interface ∧ so.tx_clk = s.tx_clk ∧
      so.regulator = s.regulator ∧ so.regmap_field = s.regmap_field from
    key (sun7i_gmac_init env s).1 (sun7i_gmac_init env s).2 rfl
  intro ri so hE
  obtain ⟨i0, ce, tc, reg, rf, cr, cp, co, fv, ro⟩ := s
  obtain ⟨er, sr, pr, en⟩ := env
  cases rf <;> cases reg <;> by_cases her : er = 0 <;>
    (simp [sun7i_gmac_init, sun7i_gmac_init_body, regulator_enable, clk_prepare_enable,
       clk_prepare, clk_enable, clk_set_rate, regmap_field_write, clk_unprepare, her] at hE
     (try split_ifs at hE) <;> (try simp only [Prod.mk.injEq] at hE) <;>
       obtain ⟨hr1, hr2⟩ := hE <;> subst hr2 <;> (try subst hr1) <;> simp)

set_option maxRecDepth 8000 in
set_option maxHeartbeats 2000000 in
/-- Fix_speed never modifies the discovery-time fields of the state. -/
theorem sun7i_fix_speed_frame (env : ClkEnv) (s : GmacState) (v : Nat) :
    (sun7i_fix_speed env s v).interface = s.interface ∧
    (sun7i_fix_speed env s v).tx_clk = s.tx_clk ∧
    (sun7i_fix_speed env s v).regulator = s.regulator ∧
    (sun7i_fix_speed env s v).regmap_field = s.regmap_field := by
  suffices key : ∀ so, sun7i_fix_speed env s v = so →
      so.interface = s.interface ∧ so.tx_clk = s.tx_clk ∧
      so.regulator = s.regulator ∧ so.regmap_field = s.regmap_field from
    key (sun7i_fix_speed env s v) rfl
  intro so hE
  obtain ⟨i0, ce, tc, reg, rf, cr, cp, co, fv, ro⟩ := s
  obtain ⟨er, sr, pr, en⟩ := env
  cases rf <;>
    (simp [sun7i_fix_speed, clk_prepare_enable, clk_prepare, clk_enable, clk_disable,
       clk_unprepare, clk_set_rate, regmap_field_write] at hE
     (try split_ifs at hE) <;> subst hE <;> simp)

set_option maxRecDepth 8000 in
set_option maxHeartbeats 2000000 in
/-- Exit never modifies the discovery-time fields of the state. -/
theorem sun7i_gmac_exit_frame (s : GmacState) :
    (sun7i_gmac_exit s).1.interface = s.interface ∧
    (sun7i_gmac_exit s).1.tx_clk = s.tx_clk ∧
    (sun7i_gmac_exit s).1.regulator = s.regulator ∧
    (sun7i_gmac_exit s).1.regmap_field = s.regmap_field := by
  suffices key : ∀ so tr, sun7i_gmac_exit s = (so, tr) →
      so.interface = s.interface ∧ so.tx_clk = s.tx_clk ∧
      so.regulator = s.regulator ∧ so.regmap_field = s.regmap_field from
    key (sun7i_gmac_exit s).1 (sun7i_gmac_exit s).2 rfl
  intro so tr hE
  obtain ⟨i0, ce, tc, reg, rf, cr, cp, co, fv, ro⟩ := s
  cases rf <;> cases reg <;> cases ce <;>
    (simp [sun7i_gmac_exit, clk_disable, clk_unprepare, regulator_disable,
       regmap_field_write] at hE
     (try simp only [Prod.mk.injEq] at hE) <;> obtain ⟨hr1, hr2⟩ := hE <;>
       subst hr1 <;> subst hr2 <;> simp)

/-- Foldl of fix_speed never modifies the discovery-time fields. -/
theorem sun7i_fix_speed_foldl_frame (env : ClkEnv) (speeds : List Nat) (s : GmacState) :
    (List.foldl (sun7i_fix_speed env) s speeds).interface = s.interface ∧
    (List.foldl (sun7i_fix_speed env) s speeds).tx_clk = s.tx_clk ∧
    (List.foldl (sun7i_fix_speed env) s speeds).regulator = s.regulator ∧
    (List.foldl (sun7i_fix_speed env) s speeds).regmap_field = s.regmap_field := by
  induction speeds generalizing s with
  | nil => simp
  | cons v rest ih =>
    have h1 := sun7i_fix_speed_frame env s v
    have h2 := ih (sun7i_fix_speed env s v)
    simp only [List.foldl_cons]
    exact ⟨h2.1.trans h1.1, h2.2.1.trans h1.2.1, h2.2.2.1.trans h1.2.2.1,
      h2.2.2.2.trans h1.2.2.2⟩

set_option maxRecDepth 8000 in
set_option maxHeartbeats 2000000 in
/-- Init preserves the tracked-state invariant, in every environment. -/
theorem GmacInv_init (env : ClkEnv) (s : GmacState) (h : GmacInv s) :
    GmacInv (sun7i_gmac_init env s).2 := by
  suffices key : ∀ ri so, sun7i_gmac_init env s = (ri, so) → GmacInv so from
    key (sun7i_gmac_init env s).1 (sun7i_gmac_init env s).2 rfl
  intro ri so hE
  obtain ⟨i0, ce, tc, reg, rf, cr, cp, co, fv, ro⟩ := s
  obtain ⟨er, sr, pr, en⟩ := env
  obtain ⟨ha, hb, hc⟩ := h
  simp only at ha hb hc
  cases rf <;> cases reg <;> by_cases her : er = 0 <;>
    (simp [sun7i_gmac_init, sun7i_gmac_init_body, regulator_enable,
       clk_prepare_enable, clk_prepare, clk_enable, clk_set_rate, regmap_field_write,
       clk_unprepare, her] at hE
     (try split_ifs at hE) <;> (try simp only [Prod.mk.injEq] at hE) <;>
       obtain ⟨hr1, hr2⟩ := hE <;> subst hr2 <;> (try subst hr1) <;>
       simp_all [GmacInv])

set_option maxRecDepth 8000 in
set_option maxHeartbeats 2000000 in
/-- Fix_speed preserves the tracked-state invariant, in every
environment. -/
theorem GmacInv_fix_speed (env : ClkEnv) (s : GmacState) (v : Nat) (h : GmacInv s) :
    GmacInv (sun7i_fix_speed env s v) := by
  suffices key : ∀ so, sun7i_fix_speed env s v = so → GmacInv so from
    key (sun7i_fix_speed env s v) rfl
  intro so hE
  obtain ⟨i0, ce, tc, reg, rf, cr, cp, co, fv, ro⟩ := s
  obtain ⟨er, sr, pr, en⟩ := env
  obtain ⟨ha, hb, hc⟩ := h
  simp only at ha hb hc
  cases rf <;> cases ce <;>
    (simp [sun7i_fix_speed, clk_prepare_enable, clk_prepare, clk_enable,
       clk_disable, clk_unprepare, clk_set_rate, regmap_field_write] at hE
     (try split_ifs at hE) <;> subst hE <;> simp_all [GmacInv])

/-- Foldl of fix_speed preserves the tracked-state invariant. -/
theorem GmacInv_foldl (env : ClkEnv) (speeds : List Nat) (s : GmacState) (h : GmacInv s) :
    GmacInv (List.foldl (sun7i_fix_speed env) s speeds) := by
  induction speeds generalizing s with
  | nil => simpa using h
  | cons v rest ih => exact ih (sun7i_fix_speed env s v) (GmacInv_fix_speed env s v h)

set_option maxRecDepth 8000 in
set_option maxHeartbeats 2000000 in
/-- Exit from any state satisfying the tracked-state invariant leaves
nothing enabled, and disables the regulator with its last collaborator
call. -/
theorem sun7i_gmac_exit_quiesced (s : GmacState) (h : GmacInv s) :
    (sun7i_gmac_exit s).1.clk_on = false ∧
    (sun7i_gmac_exit s).1.clk_prepared = false ∧
    (sun7i_gmac_exit s).1.clk_enabled = false ∧
    (s.regmap_field.isSome = true → (sun7i_gmac_exit s).1.field_value = 0) ∧
    (sun7i_gmac_exit s).1.regulator_on = false ∧
    (s.regulator.isSome = true →
       (sun7i_gmac_exit s).2.getLast? = some GmacEvent.ev_regulator_disable) := by
  suffices key : ∀ so tr, sun7i_gmac_exit s = (so, tr) →
      so.clk_on = false ∧ so.clk_prepared = false ∧ so.clk_enabled = false ∧
      (s.regmap_field.isSome = true → so.field_value = 0) ∧
      so.regulator_on = false ∧
      (s.regulator.isSome = true → tr.getLast? = some GmacEvent.ev_regulator_disable) from
    key (sun7i_gmac_exit s).1 (sun7i_gmac_exit s).2 rfl
  intro so tr hE
  obtain ⟨i0, ce, tc, reg, rf, cr, cp, co, fv, ro⟩ := s
  obtain ⟨ha, hb, hc⟩ := h
  simp only at ha hb hc
  cases rf <;> cases reg <;> cases ce <;> cases co <;>
    (simp [sun7i_gmac_exit, clk_disable, clk_unprepare, regulator_disable,
       regmap_field_write] at hE
     (try simp only [Prod.mk.injEq] at hE) <;> obtain ⟨hr1, hr2⟩ := hE <;>
       subst hr1 <;> subst hr2 <;> simp_all)

/-! Claim theorems. -/

/-- C1 (amended): on the Modern path, with the optional regulator stage
succeeding, init writes the RGMII register value and then prepares and
enables the clock, returning that combined step's result, when the
Interface Mode is RGMII-family; otherwise it writes the MII register
value and then performs a bare enable (without prepare), returning the
enable's result — so after a successful non-RGMII init the clock gate is
open but its prepared state is whatever it was before the call. -/
theorem c1_modern_init (env : ClkEnv) (s : GmacState) (ri : Int) (so : GmacState)
    (hinit : sun7i_gmac_init env s = (ri, so))
    (hm : s.regmap_field.isSome = true)
    (hreg : s.regulator.isSome = true → env.regulator_enable_ret = 0) :
    (phy_interface_mode_is_rgmii s.interface = true →
       so.field_value = SUN7I_A20_RGMII_CLK ∧
       ri = (if env.clk_prepare_ret ≠ 0 then env.clk_prepare_ret else env.clk_enable_ret) ∧
       (ri = 0 → so.clk_prepared = true ∧ so.clk_on = true)) ∧
    (phy_interface_mode_is_rgmii s.interface = false →
       so.field_value = SUN7I_A20_MII_CLK ∧
       ri = env.clk_enable_ret ∧
       (ri = 0 → so.clk_on = true ∧ so.clk_prepared = s.clk_prepared)) := by
  obtain ⟨i, ce, tc, reg, rf, cr, cp, co, fv, ro⟩ := s
  obtain ⟨er, sr, pr, en⟩ := env
  simp only at hm hreg
  cases rf with
  | none => simp at hm
  | some w =>
    cases reg with
    | none =>
      cases i <;>
        (simp [sun7i_gmac_init, sun7i_gmac_init_body, regulator_enable,
          clk_prepare_enable, clk_prepare, clk_enable, clk_set_rate, regmap_field_write,
          clk_unprepare, phy_interface_mode_is_rgmii] at hinit
         split_ifs at hinit <;> (try simp only [Prod.mk.injEq] at hinit) <;>
         obtain ⟨hr1, hr2⟩ := hinit <;> subst hr2 <;>
         (try subst hr1) <;> simp_all [phy_interface_mode_is_rgmii])
    | some u =>
      have her : er = 0 := hreg rfl
      subst her
      cases i <;>
        (simp [sun7i_gmac_init, sun7i_gmac_init_body, regulator_enable,
          clk_prepare_enable, clk_prepare, clk_enable, clk_set_rate, regmap_field_write,
          clk_unprepare, phy_interface_mode_is_rgmii] at hinit
         split_ifs at hinit <;> (try simp only [Prod.mk.injEq] at hinit) <;>
         obtain ⟨hr1, hr2⟩ := hinit <;> subst hr2 <;>
         (try subst hr1) <;> simp_all [phy_interface_mode_is_rgmii])

/-- Witness for C1: at a concrete RGMII-family Modern state with every
primitive succeeding, the amended theorem yields the RGMII register
value in the mode-select field. -/
theorem c1_modern_init_witness :
    (sun7i_gmac_init ClkEnv.ok
      (freshState phy_interface_t.PHY_INTERFACE_MODE_RGMII true)).2.field_value =
      SUN7I_A20_RGMII_CLK :=
  ((c1_modern_init ClkEnv.ok (freshState phy_interface_t.PHY_INTERFACE_MODE_RGMII true)
      (sun7i_gmac_init ClkEnv.ok (freshState phy_interface_t.PHY_INTERFACE_MODE_RGMII true)).1
      (sun7i_gmac_init ClkEnv.ok (freshState phy_interface_t.PHY_INTERFACE_MODE_RGMII true)).2
      rfl (by decide) (by decide)).1 (by decide)).1

/-- C1 counterexample: for a Modern-path MII state (all primitives
succeeding) init succeeds, yet the clock is left unprepared, and the
init result differs from "write the MII value then a combined
prepare+enable step" — the code performs a bare `clk_enable` on the
non-RGMII branch, refuting the claim's "combined prepare+enable step"
for that branch. -/
theorem c1_counterexample :
    (sun7i_gmac_init ClkEnv.ok (freshState phy_interface_t.PHY_INTERFACE_MODE_MII true)).1 = 0 ∧
    (sun7i_gmac_init ClkEnv.ok
      (freshState phy_interface_t.PHY_INTERFACE_MODE_MII true)).2.clk_prepared = false ∧
    sun7i_gmac_init ClkEnv.ok (freshState phy_interface_t.PHY_INTERFACE_MODE_MII true) ≠
      clk_prepare_enable ClkEnv.ok
        (regmap_field_write (freshState phy_interface_t.PHY_INTERFACE_MODE_MII true)
          SUN7I_A20_MII_CLK) := by
  decide

set_option maxRecDepth 8000 in
set_option maxHeartbeats 1000000 in
/-- C2 (amended): on the Legacy path from a fresh post-discovery state,
provided the optional regulator enable and the fire-and-forget
`clk_set_rate` call succeed: for RGMII-family modes (whose clock calls
are also fire-and-forget, so their success is likewise assumed) init
succeeds and leaves rate 125 MHz, the clock prepared+enabled and the
flag true; for every other mode init fails exactly when the `clk_prepare`
call fails, and on success leaves rate 25 MHz, the clock only prepared,
and the flag false. -/
theorem c2_legacy_init (env : ClkEnv) (s : GmacState) (ri : Int) (so : GmacState)
    (hinit : sun7i_gmac_init env s = (ri, so))
    (hm : s.regmap_field = none)
    (hflag : s.clk_enabled = false)
    (hon : s.clk_on = false)
    (hreg : s.regulator.isSome = true → env.regulator_enable_ret = 0)
    (hsr : env.clk_set_rate_ret = 0) :
    (phy_interface_mode_is_rgmii s.interface = true →
       env.clk_prepare_ret = 0 → env.clk_enable_ret = 0 →
       ri = 0 ∧ so.clk_rate = SUN7I_GMAC_GMII_RGMII_RATE ∧
       so.clk_prepared = true ∧ so.clk_on = true ∧ so.clk_enabled = true) ∧
    (phy_interface_mode_is_rgmii s.interface = false →
       ((ri = 0) ↔ env.clk_prepare_ret = 0) ∧
       (ri = 0 →
         so.clk_rate = SUN7I_GMAC_MII_RATE ∧ so.clk_prepared = true ∧
         so.clk_on = false ∧ so.clk_enabled = false)) := by
  obtain ⟨i, ce, tc, reg, rf, cr, cp, co, fv, ro⟩ := s
  obtain ⟨er, sr, pr, en⟩ := env
  simp only at hm hflag hon hsr hreg
  subst hm hflag hon hsr
  cases reg with
  | none =>
    cases i <;>
      (simp [sun7i_gmac_init, sun7i_gmac_init_body, regulator_enable,
        clk_prepare_enable, clk_prepare, clk_enable, clk_set_rate, regmap_field_write,
        clk_unprepare, phy_interface_mode_is_rgmii] at hinit
       split_ifs at hinit <;> (try simp only [Prod.mk.injEq] at hinit) <;>
         obtain ⟨hr1, hr2⟩ := hinit <;> subst hr2 <;>
         (try subst hr1) <;> simp_all [phy_interface_mode_is_rgmii])
  | some u =>
    have her : er = 0 := hreg rfl
    subst her
    cases i <;>
      (simp [sun7i_gmac_init, sun7i_gmac_init_body, regulator_enable,
        clk_prepare_enable, clk_prepare, clk_enable, clk_set_rate, regmap_field_write,
        clk_unprepare, phy_interface_mode_is_rgmii] at hinit
       split_ifs at hinit <;> (try simp only [Prod.mk.injEq] at hinit) <;>
         obtain ⟨hr1, hr2⟩ := hinit <;> subst hr2 <;>
         (try subst hr1) <;> simp_all [phy_interface_mode_is_rgmii])

/-- Witness for C2: at a concrete Legacy GMII fresh state with every
primitive succeeding, the amended theorem yields the 25 MHz rate. -/
theorem c2_legacy_init_witness :
    (sun7i_gmac_init ClkEnv.ok
      (freshState phy_interface_t.PHY_INTERFACE_MODE_GMII false)).2.clk_rate =
      SUN7I_GMAC_MII_RATE := by
  have h := (c2_legacy_init ClkEnv.ok (freshState phy_interface_t.PHY_INTERFACE_MODE_GMII false)
    (sun7i_gmac_init ClkEnv.ok (freshState phy_interface_t.PHY_INTERFACE_MODE_GMII false)).1
    (sun7i_gmac_init ClkEnv.ok (freshState phy_interface_t.PHY_INTERFACE_MODE_GMII false)).2
    rfl (by decide) (by decide) (by decide) (by decide) (by decide)).2 (by decide)
  exact (h.2 (h.1.mpr (by decide))).1

/-- C2 counterexample: a Legacy MII state with a present regulator whose
enable fails: init returns that failure although the `clk_prepare` call
did not fail, refuting "init returns a failure exactly when that prepare
call fails". -/
theorem c2_counterexample :
    (sun7i_gmac_init ⟨-22, 0, 0, 0⟩
      { freshState phy_interface_t.PHY_INTERFACE_MODE_MII false with regulator := some () }).1 =
      -22 ∧
    (⟨-22, 0, 0, 0⟩ : ClkEnv).clk_prepare_ret = 0 := by
  decide

/-- C8: evaluating init at the failing input of the regulator-leak bug:
Modern path, RGMII mode, regulator present, `clk_prepare` failing with
-5.  Init surfaces the error while the regulator it enabled during the
same attempt is still enabled — no unwinding happens (and
`sun7i_gmac_probe` jumps to `err_remove_config_dt`, not
`err_gmac_exit`, on init failure, so `sun7i_gmac_exit` never runs
either). -/
theorem c8_regulator_leak :
    (sun7i_gmac_init ⟨0, 0, -5, 0⟩
      { freshState phy_interface_t.PHY_INTERFACE_MODE_RGMII true with regulator := some () }).1 =
      -5 ∧
    (sun7i_gmac_init ⟨0, 0, -5, 0⟩
      { freshState phy_interface_t.PHY_INTERFACE_MODE_RGMII true with
          regulator := some () }).2.regulator_on = true := by
  decide

set_option maxRecDepth 8000 in
set_option maxHeartbeats 2000000 in
/-- C9 (amended): a complete characterization of init failure.  Init
fails exactly when the regulator enable fails, or (past the regulator)
on the Modern path the prepare or the enable half fails for RGMII-family
modes — respectively the bare enable fails for other modes — or on the
Legacy path the `clk_prepare` of a non-RGMII mode fails.  In particular
`clk_set_rate` failures never fail init, and on the Legacy RGMII branch
no clock failure does. -/
theorem c9_init_failure_characterization (env : ClkEnv) (s : GmacState) (ri : Int)
    (so : GmacState) (hinit : sun7i_gmac_init env s = (ri, so)) :
    (ri ≠ 0 ↔
      ((s.regulator.isSome = true ∧ env.regulator_enable_ret ≠ 0) ∨
       (¬(s.regulator.isSome = true ∧ env.regulator_enable_ret ≠ 0) ∧
         s.regmap_field.isSome = true ∧
         ((phy_interface_mode_is_rgmii s.interface = true ∧
             (env.clk_prepare_ret ≠ 0 ∨ env.clk_enable_ret ≠ 0)) ∨
          (phy_interface_mode_is_rgmii s.interface = false ∧ env.clk_enable_ret ≠ 0))) ∨
       (¬(s.regulator.isSome = true ∧ env.regulator_enable_ret ≠ 0) ∧
         s.regmap_field.isSome = false ∧
         phy_interface_mode_is_rgmii s.interface = false ∧
         env.clk_prepare_ret ≠ 0))) := by
  obtain ⟨i, ce, tc, reg, rf, cr, cp, co, fv, ro⟩ := s
  obtain ⟨er, sr, pr, en⟩ := env
  cases rf <;> cases reg <;> by_cases her : er = 0 <;> cases i <;>
    (simp [sun7i_gmac_init, sun7i_gmac_init_body, regulator_enable,
      clk_prepare_enable, clk_prepare, clk_enable, clk_set_rate, regmap_field_write,
      clk_unprepare, phy_interface_mode_is_rgmii, her] at hinit
     (try split_ifs at hinit) <;> (try simp only [Prod.mk.injEq] at hinit) <;>
         obtain ⟨hr1, hr2⟩ := hinit <;> subst hr2 <;>
       (try subst hr1) <;> simp_all [phy_interface_mode_is_rgmii])

/-- Witness for C9: the characterization applied at a concrete Modern
MII state with only the bare enable failing shows init failing there. -/
theorem c9_init_failure_characterization_witness :
    (sun7i_gmac_init ⟨0, 0, 0, -5⟩
      (freshState phy_interface_t.PHY_INTERFACE_MODE_MII true)).1 ≠ 0 :=
  (c9_init_failure_characterization ⟨0, 0, 0, -5⟩
    (freshState phy_interface_t.PHY_INTERFACE_MODE_MII true)
    (sun7i_gmac_init ⟨0, 0, 0, -5⟩
      (freshState phy_interface_t.PHY_INTERFACE_MODE_MII true)).1
    (sun7i_gmac_init ⟨0, 0, 0, -5⟩
      (freshState phy_interface_t.PHY_INTERFACE_MODE_MII true)).2
    (by rfl)).mpr (by decide)

/-- C9 counterexample: a Modern MII state with only the bare enable
failing: init fails although neither `clk_set_rate` nor `clk_prepare`
failed (and no regulator is present) — a bare enable failure is fatal.
Conversely, a Legacy RGMII state whose `clk_set_rate` fails still
succeeds: a set_rate failure does not make init fail. -/
theorem c9_counterexample :
    (sun7i_gmac_init ⟨0, 0, 0, -5⟩
      (freshState phy_interface_t.PHY_INTERFACE_MODE_MII true)).1 ≠ 0 ∧
    (⟨0, 0, 0, -5⟩ : ClkEnv).clk_set_rate_ret = 0 ∧
    (⟨0, 0, 0, -5⟩ : ClkEnv).clk_prepare_ret = 0 ∧
    (freshState phy_interface_t.PHY_INTERFACE_MODE_MII true).regulator = none ∧
    (sun7i_gmac_init ⟨0, -7, 0, 0⟩
      (freshState phy_interface_t.PHY_INTERFACE_MODE_RGMII false)).1 = 0 := by
  decide

/-- C3: on the Modern path, `fix_speed` with all clock calls succeeding
leaves the mode-select field holding the RGMII register value exactly
when the speed is 1000 (the MII value otherwise) and always leaves the
clock prepared and enabled; and the recorded Interface Mode is never
consulted: changing it changes nothing else in the result, for any
primitive-outcome environment. -/
theorem c3_modern_fix_speed (s : GmacState) (v : Nat)
    (hm : s.regmap_field.isSome = true) :
    (sun7i_fix_speed ClkEnv.ok s v).field_value =
      (if v = 1000 then SUN7I_A20_RGMII_CLK else SUN7I_A20_MII_CLK) ∧
    (sun7i_fix_speed ClkEnv.ok s v).clk_prepared = true ∧
    (sun7i_fix_speed ClkEnv.ok s v).clk_on = true ∧
    (∀ (env : ClkEnv) (i : phy_interface_t),
       sun7i_fix_speed env { s with interface := i } v =
         { sun7i_fix_speed env s v with interface := i }) := by
  obtain ⟨i0, ce, tc, reg, rf, cr, cp, co, fv, ro⟩ := s
  simp only at hm
  cases rf with
  | none => simp at hm
  | some w =>
    refine ⟨?_, ?_, ?_, ?_⟩
    · simp [sun7i_fix_speed, clk_prepare_enable, clk_prepare, clk_enable, clk_disable,
        clk_unprepare, clk_set_rate, regmap_field_write, ClkEnv.ok]
      split_ifs <;> simp_all
    · simp [sun7i_fix_speed, clk_prepare_enable, clk_prepare, clk_enable, clk_disable,
        clk_unprepare, clk_set_rate, regmap_field_write, ClkEnv.ok]
    · simp [sun7i_fix_speed, clk_prepare_enable, clk_prepare, clk_enable, clk_disable,
        clk_unprepare, clk_set_rate, regmap_field_write, ClkEnv.ok]
    · intro env i
      obtain ⟨er, sr, pr, en⟩ := env
      by_cases hv : v = 1000 <;> by_cases hpr : pr = 0 <;> by_cases hen : en = 0 <;>
        simp [sun7i_fix_speed, clk_prepare_enable, clk_prepare, clk_enable, clk_disable,
          clk_unprepare, clk_set_rate, regmap_field_write, hv, hpr, hen]

/-- Witness for C3: at a concrete Modern state, `fix_speed 100` leaves
the MII register value in the mode-select field. -/
theorem c3_modern_fix_speed_witness :
    (sun7i_fix_speed ClkEnv.ok (freshState phy_interface_t.PHY_INTERFACE_MODE_RGMII true)
      100).field_value = (if 100 = 1000 then SUN7I_A20_RGMII_CLK else SUN7I_A20_MII_CLK) :=
  (c3_modern_fix_speed (freshState phy_interface_t.PHY_INTERFACE_MODE_RGMII true) 100
    (by decide)).1

/-- C4: on the Legacy path, `fix_speed` is a complete no-op (equal
post-state, for every primitive-outcome environment) whenever the
Interface Mode is anything but exactly GMII; for GMII, with the tracked
flag agreeing with the clock gate and all clock calls succeeding, speed
1000 yields rate 125 MHz, clock prepared+enabled and flag true, and any
other speed yields rate 25 MHz, clock prepared but not enabled and flag
false. -/
theorem c4_legacy_fix_speed (s : GmacState) (v : Nat)
    (hm : s.regmap_field = none) :
    (s.interface ≠ phy_interface_t.PHY_INTERFACE_MODE_GMII →
       ∀ env : ClkEnv, sun7i_fix_speed env s v = s) ∧
    (s.interface = phy_interface_t.PHY_INTERFACE_MODE_GMII →
       s.clk_enabled = s.clk_on →
       (v = 1000 →
          (sun7i_fix_speed ClkEnv.ok s v).clk_rate = SUN7I_GMAC_GMII_RGMII_RATE ∧
          (sun7i_fix_speed ClkEnv.ok s v).clk_prepared = true ∧
          (sun7i_fix_speed ClkEnv.ok s v).clk_on = true ∧
          (sun7i_fix_speed ClkEnv.ok s v).clk_enabled = true) ∧
       (v ≠ 1000 →
          (sun7i_fix_speed ClkEnv.ok s v).clk_rate = SUN7I_GMAC_MII_RATE ∧
          (sun7i_fix_speed ClkEnv.ok s v).clk_prepared = true ∧
          (sun7i_fix_speed ClkEnv.ok s v).clk_on = false ∧
          (sun7i_fix_speed ClkEnv.ok s v).clk_enabled = false)) := by
  obtain ⟨i0, ce, tc, reg, rf, cr, cp, co, fv, ro⟩ := s
  simp only at hm
  subst hm
  constructor
  · intro hne env
    simp only at hne
    simp [sun7i_fix_speed, hne]
  · intro hg hflag
    simp only at hg hflag
    subst hg hflag
    cases ce <;>
      constructor <;>
      intro hv <;>
      simp [sun7i_fix_speed, clk_prepare_enable, clk_prepare, clk_enable, clk_disable,
        clk_unprepare, clk_set_rate, regmap_field_write, ClkEnv.ok, hv]

/-- Witness for C4: at a concrete Legacy RGMII state (not GMII),
`fix_speed 10` changes nothing. -/
theorem c4_legacy_fix_speed_witness :
    sun7i_fix_speed ClkEnv.ok (freshState phy_interface_t.PHY_INTERFACE_MODE_RGMII false) 10 =
      freshState phy_interface_t.PHY_INTERFACE_MODE_RGMII false :=
  (c4_legacy_fix_speed (freshState phy_interface_t.PHY_INTERFACE_MODE_RGMII false) 10
    (by decide)).1 (by decide) ClkEnv.ok

/-- C6: `fix_speed` is idempotent: on every state whose Legacy tracked
flag is sound (the clock gate is open only if `clk_enabled` is set —
true of every post-init state, since Legacy init either sets the flag or
leaves the gate closed), for every speed and every primitive-outcome
environment, repeating the call with the same speed reproduces exactly
the same observable state (registers, clock rate, prepared/enabled,
flag). -/
theorem c6_fix_speed_idempotent (env : ClkEnv) (s : GmacState) (v : Nat)
    (hinv : s.regmap_field = none → s.clk_on = true → s.clk_enabled = true) :
    sun7i_fix_speed env (sun7i_fix_speed env s v) v = sun7i_fix_speed env s v := by
  obtain ⟨i0, ce, tc, reg, rf, cr, cp, co, fv, ro⟩ := s
  obtain ⟨er, sr, pr, en⟩ := env
  simp only at hinv
  cases rf with
  | some w =>
    by_cases hv : v = 1000 <;> by_cases hpr : pr = 0 <;> by_cases hen : en = 0 <;>
      simp [sun7i_fix_speed, clk_prepare_enable, clk_prepare, clk_enable, clk_disable,
        clk_unprepare, clk_set_rate, regmap_field_write, hv, hpr, hen]
  | none =>
    have hco : co = true → ce = true := hinv rfl
    by_cases hg : i0 = phy_interface_t.PHY_INTERFACE_MODE_GMII <;>
      by_cases hv : v = 1000 <;>
      by_cases hsr : sr = 0 <;>
      by_cases hpr : pr = 0 <;>
      by_cases hen : en = 0 <;>
      cases ce <;> cases co <;>
      first
        | exact absurd (hco rfl) Bool.false_ne_true
        | simp [sun7i_fix_speed, clk_prepare_enable, clk_prepare, clk_enable, clk_disable,
            clk_unprepare, clk_set_rate, regmap_field_write, hg, hv, hsr, hpr, hen]

/-- Witness for C6: at a concrete Legacy GMII post-init state,
`fix_speed 1000` twice equals `fix_speed 1000` once. -/
theorem c6_fix_speed_idempotent_witness :
    sun7i_fix_speed ClkEnv.ok
      (sun7i_fix_speed ClkEnv.ok (freshState phy_interface_t.PHY_INTERFACE_MODE_GMII false)
        1000) 1000 =
      sun7i_fix_speed ClkEnv.ok (freshState phy_interface_t.PHY_INTERFACE_MODE_GMII false)
        1000 :=
  c6_fix_speed_idempotent ClkEnv.ok (freshState phy_interface_t.PHY_INTERFACE_MODE_GMII false)
    1000 (by decide)

/-- C5: from any fresh post-discovery state (flag clear, clock gate
closed, regulator off — what discovery produces), after init and any
sequence of fix_speed calls (all with succeeding primitives), exit
leaves no resource enabled: the clock gate is closed and the clock
unprepared, the Legacy flag is clear, the Modern mode-select field holds
zero, the regulator is off — and when a regulator is held, the last
collaborator call exit makes is the regulator disable. -/
theorem c5_exit_quiesces (s0 : GmacState) (speeds : List Nat)
    (h1 : s0.clk_enabled = false) (h2 : s0.clk_on = false)
    (h3 : s0.regulator_on = false) :
    (sun7i_gmac_exit (List.foldl (sun7i_fix_speed ClkEnv.ok)
       ((sun7i_gmac_init ClkEnv.ok s0).2) speeds)).1.clk_on = false ∧
    (sun7i_gmac_exit (List.foldl (sun7i_fix_speed ClkEnv.ok)
       ((sun7i_gmac_init ClkEnv.ok s0).2) speeds)).1.clk_prepared = false ∧
    (sun7i_gmac_exit (List.foldl (sun7i_fix_speed ClkEnv.ok)
       ((sun7i_gmac_init ClkEnv.ok s0).2) speeds)).1.clk_enabled = false ∧
    (s0.regmap_field.isSome = true →
       (sun7i_gmac_exit (List.foldl (sun7i_fix_speed ClkEnv.ok)
         ((sun7i_gmac_init ClkEnv.ok s0).2) speeds)).1.field_value = 0) ∧
    (sun7i_gmac_exit (List.foldl (sun7i_fix_speed ClkEnv.ok)
       ((sun7i_gmac_init ClkEnv.ok s0).2) speeds)).1.regulator_on = false ∧
    (s0.regulator.isSome = true →
       (sun7i_gmac_exit (List.foldl (sun7i_fix_speed ClkEnv.ok)
         ((sun7i_gmac_init ClkEnv.ok s0).2) speeds)).2.getLast? =
         some GmacEvent.ev_regulator_disable) := by
  have hinv0 : GmacInv s0 := by
    refine ⟨fun _ => h1, fun _ hco => ?_, fun _ => h3⟩
    rw [h2] at hco
    exact absurd hco Bool.false_ne_true
  have hinv1 := GmacInv_init ClkEnv.ok s0 hinv0
  have hinv2 := GmacInv_foldl ClkEnv.ok speeds ((sun7i_gmac_init ClkEnv.ok s0).2) hinv1
  have hfr1 := sun7i_gmac_init_frame ClkEnv.ok s0
  have hfr2 := sun7i_fix_speed_foldl_frame ClkEnv.ok speeds ((sun7i_gmac_init ClkEnv.ok s0).2)
  have hq := sun7i_gmac_exit_quiesced
    (List.foldl (sun7i_fix_speed ClkEnv.ok) ((sun7i_gmac_init ClkEnv.ok s0).2) speeds) hinv2
  refine ⟨hq.1, hq.2.1, hq.2.2.1, ?_, hq.2.2.2.2.1, ?_⟩
  · intro hmf
    refine hq.2.2.2.1 ?_
    rw [hfr2.2.2.2, hfr1.2.2.2]
    exact hmf
  · intro hr
    refine hq.2.2.2.2.2 ?_
    rw [hfr2.2.2.1, hfr1.2.2.1]
    exact hr

/-- Witness for C5: from a concrete fresh Modern RGMII state with a
regulator, init, a fix_speed to 100, and exit end with the regulator
disable as the final collaborator call. -/
theorem c5_exit_quiesces_witness :
    (sun7i_gmac_exit (List.foldl (sun7i_fix_speed ClkEnv.ok)
       ((sun7i_gmac_init ClkEnv.ok
         { freshState phy_interface_t.PHY_INTERFACE_MODE_RGMII true with
             regulator := some () }).2) [100])).2.getLast? =
      some GmacEvent.ev_regulator_disable :=
  (c5_exit_quiesces
    { freshState phy_interface_t.PHY_INTERFACE_MODE_RGMII true with regulator := some () }
    [100] (by decide) (by decide) (by decide)).2.2.2.2.2 (by decide)

/-- C7 (amended): when the hardware description carries the syscon
phandle but the owning device has not been probed, the inner lookup
`sun7i_gmac_get_syscon_from_dev` does report the deferred error, but
probe then falls back to the direct syscon regmap lookup: discovery
fails — with the fallback's own error, which is the deferred error only
if the fallback itself defers — exactly when the fallback also fails,
and otherwise proceeds with the fallback's regmap (here to a successful
discovery when the remaining acquisitions succeed).  All handles are
device-managed, so a failing probe holds no clock or regulator. -/
theorem c7_syscon_defer_fallback (env : ProbeEnv)
    (hphy : env.phy_mode_ret = 0)
    (hph : env.has_syscon_phandle = true)
    (hdev : env.syscon_dev_found = false)
    (hclk : env.clk_get_modern_ret = 0) :
    sun7i_gmac_get_syscon_from_dev env = -EPROBE_DEFER ∧
    (env.fallback_lookup_ret ≠ 0 →
       sun7i_gmac_discover env = .error env.fallback_lookup_ret) ∧
    (env.fallback_lookup_ret = 0 → env.field_alloc_ret = 0 →
       env.regulator_get_ret = 0 →
       sun7i_gmac_discover env =
         .ok { freshState env.phy_mode true with regulator := some () }) := by
  obtain ⟨pm, pmv, ph, df, drm, fb, cm, cl, fa, rg⟩ := env
  simp only at hphy hph hdev hclk
  subst hphy hph hdev hclk
  refine ⟨?_, ?_, ?_⟩
  · simp [sun7i_gmac_get_syscon_from_dev, ENODEV, EPROBE_DEFER, EINVAL]
  · intro hne
    simp only at hne
    cases drm <;>
      simp [sun7i_gmac_discover, sun7i_gmac_get_syscon_from_dev,
        sun7i_gmac_probe_regulator, freshState, ENODEV, EPROBE_DEFER, EINVAL, hne]
  · intro hfb hfa hrg
    simp only at hfb hfa hrg
    subst hfb hfa hrg
    cases drm <;>
      simp [sun7i_gmac_discover, sun7i_gmac_get_syscon_from_dev,
        sun7i_gmac_probe_regulator, freshState, ENODEV, EPROBE_DEFER, EINVAL]

/-- Witness for C7: with the owning device unprobed and the fallback
lookup failing with -ENODEV, discovery fails with -ENODEV (a fatal, not
deferred, error). -/
theorem c7_syscon_defer_fallback_witness :
    sun7i_gmac_discover
      ⟨0, phy_interface_t.PHY_INTERFACE_MODE_RGMII, true, false, true, -ENODEV, 0, 0, 0, 0⟩ =
      .error (-ENODEV) :=
  (c7_syscon_defer_fallback
    ⟨0, phy_interface_t.PHY_INTERFACE_MODE_RGMII, true, false, true, -ENODEV, 0, 0, 0, 0⟩
    rfl rfl rfl rfl).2.1 (by decide)

/-- C7 counterexample: with the syscon phandle present and the owning
device not yet probed, but the direct syscon regmap lookup succeeding,
discovery succeeds — it does not fail with the deferred error as the
claim requires. -/
theorem c7_counterexample :
    sun7i_gmac_discover
      ⟨0, phy_interface_t.PHY_INTERFACE_MODE_RGMII, true, false, true, 0, 0, 0, 0, 0⟩ =
      .ok { freshState phy_interface_t.PHY_INTERFACE_MODE_RGMII true with
              regulator := some () } := by
  rfl

/-- One framework operation on the Modern path preserves the Legacy flag
and is oblivious to its value (init variant). -/
theorem sun7i_gmac_init_modern_flag (env : ClkEnv) (s : GmacState) (b : Bool)
    (hm : s.regmap_field.isSome = true) :
    (sun7i_gmac_init env s).2.clk_enabled = s.clk_enabled ∧
    sun7i_gmac_init env { s with clk_enabled := b } =
      ((sun7i_gmac_init env s).1, { (sun7i_gmac_init env s).2 with clk_enabled := b }) := by
  obtain ⟨i0, ce, tc, reg, rf, cr, cp, co, fv, ro⟩ := s
  simp only at hm
  obtain ⟨er, sr, pr, en⟩ := env
  cases rf with
  | none => simp at hm
  | some w =>
    cases reg <;> by_cases her : er = 0 <;>
      by_cases hrg : phy_interface_mode_is_rgmii i0 = true <;>
      by_cases hpr : pr = 0 <;> by_cases hen : en = 0 <;>
      simp [sun7i_gmac_init, sun7i_gmac_init_body, regulator_enable, clk_prepare_enable,
        clk_prepare, clk_enable, clk_set_rate, regmap_field_write, clk_unprepare,
        her, hrg, hpr, hen]

/-- One framework operation on the Modern path preserves the Legacy flag
and is oblivious to its value (fix_speed variant). -/
theorem sun7i_fix_speed_modern_flag (env : ClkEnv) (s : GmacState) (v : Nat) (b : Bool)
    (hm : s.regmap_field.isSome = true) :
    (sun7i_fix_speed env s v).clk_enabled = s.clk_enabled ∧
    sun7i_fix_speed env { s with clk_enabled := b } v =
      { sun7i_fix_speed env s v with clk_enabled := b } := by
  obtain ⟨i0, ce, tc, reg, rf, cr, cp, co, fv, ro⟩ := s
  simp only at hm
  obtain ⟨er, sr, pr, en⟩ := env
  cases rf with
  | none => simp at hm
  | some w =>
    by_cases hv : v = 1000 <;> by_cases hpr : pr = 0 <;> by_cases hen : en = 0 <;>
      simp [sun7i_fix_speed, clk_prepare_enable, clk_prepare, clk_enable, clk_disable,
        clk_unprepare, clk_set_rate, regmap_field_write, hv, hpr, hen]

/-- One framework operation on the Modern path preserves the Legacy flag
and is oblivious to its value (exit variant). -/
theorem sun7i_gmac_exit_modern_flag (s : GmacState) (b : Bool)
    (hm : s.regmap_field.isSome = true) :
    (sun7i_gmac_exit s).1.clk_enabled = s.clk_enabled ∧
    (sun7i_gmac_exit { s with clk_enabled := b }).1 =
      { (sun7i_gmac_exit s).1 with clk_enabled := b } := by
  obtain ⟨i0, ce, tc, reg, rf, cr, cp, co, fv, ro⟩ := s
  simp only at hm
  cases rf with
  | none => simp at hm
  | some w =>
    cases reg <;>
      simp [sun7i_gmac_exit, clk_disable, clk_unprepare, regulator_disable,
        regmap_field_write]

/-- One framework operation preserves the discovery-time fields of the
state; on the Modern path it also preserves the Legacy flag and its
result does not depend on the flag. -/
theorem runOp_frame (env : ClkEnv) (s : GmacState) (op : GmacOp) :
    (runOp env s op).interface = s.interface ∧
    (runOp env s op).tx_clk = s.tx_clk ∧
    (runOp env s op).regulator = s.regulator ∧
    (runOp env s op).regmap_field = s.regmap_field ∧
    (s.regmap_field.isSome = true →
       (runOp env s op).clk_enabled = s.clk_enabled ∧
       ∀ b : Bool, runOp env { s with clk_enabled := b } op =
         { runOp env s op with clk_enabled := b }) := by
  cases op with
  | op_init =>
    have h := sun7i_gmac_init_frame env s
    refine ⟨h.1, h.2.1, h.2.2.1, h.2.2.2, fun hm => ?_⟩
    refine ⟨(sun7i_gmac_init_modern_flag env s false hm).1, fun b => ?_⟩
    show (sun7i_gmac_init env { s with clk_enabled := b }).2 = _
    rw [(sun7i_gmac_init_modern_flag env s b hm).2]
    rfl
  | op_fix v =>
    have h := sun7i_fix_speed_frame env s v
    refine ⟨h.1, h.2.1, h.2.2.1, h.2.2.2, fun hm => ?_⟩
    exact ⟨(sun7i_fix_speed_modern_flag env s v false hm).1,
      fun b => (sun7i_fix_speed_modern_flag env s v b hm).2⟩
  | op_exit =>
    have h := sun7i_gmac_exit_frame s
    refine ⟨h.1, h.2.1, h.2.2.1, h.2.2.2, fun hm => ?_⟩
    exact ⟨(sun7i_gmac_exit_modern_flag s false hm).1,
      fun b => (sun7i_gmac_exit_modern_flag s b hm).2⟩

/-- C10: over every sequence of init / fix_speed / exit operations, in
every primitive-outcome environment, the interface mode, tx-clock
handle, regulator handle and register-field handle of the state are
never modified; and on the Modern path the `clk_enabled` flag is never
read or written: it keeps its initial value and the rest of the result
is the same whatever value the flag holds. -/
theorem c10_frame (env : ClkEnv) (ops : List GmacOp) (s : GmacState) :
    (runOps env ops s).interface = s.interface ∧
    (runOps env ops s).tx_clk = s.tx_clk ∧
    (runOps env ops s).regulator = s.regulator ∧
    (runOps env ops s).regmap_field = s.regmap_field ∧
    (s.regmap_field.isSome = true →
       (runOps env ops s).clk_enabled = s.clk_enabled ∧
       ∀ b : Bool, runOps env ops { s with clk_enabled := b } =
         { runOps env ops s with clk_enabled := b }) := by
  induction ops generalizing s with
  | nil => exact ⟨rfl, rfl, rfl, rfl, fun _ => ⟨rfl, fun b => rfl⟩⟩
  | cons op rest ih =>
    have h1 := runOp_frame env s op
    have h2 := ih (runOp env s op)
    refine ⟨h2.1.trans h1.1, h2.2.1.trans h1.2.1, h2.2.2.1.trans h1.2.2.1,
      h2.2.2.2.1.trans h1.2.2.2.1, fun hm => ?_⟩
    have hm1 : (runOp env s op).regmap_field.isSome = true := by
      rw [h1.2.2.2.1]
      exact hm
    obtain ⟨hop_ce, hop_b⟩ := h1.2.2.2.2 hm
    obtain ⟨hrest_ce, hrest_b⟩ := h2.2.2.2.2 hm1
    refine ⟨hrest_ce.trans hop_ce, fun b => ?_⟩
    show runOps env rest (runOp env { s with clk_enabled := b } op) = _
    rw [hop_b b, hrest_b b]
    rfl

/-- Witness for C10: over a concrete init→fix_speed→exit run on a
Modern state, the Legacy flag keeps its initial value. -/
theorem c10_frame_witness :
    (runOps ClkEnv.ok [GmacOp.op_init, GmacOp.op_fix 100, GmacOp.op_exit]
       (freshState phy_interface_t.PHY_INTERFACE_MODE_RGMII true)).clk_enabled =
      (freshState phy_interface_t.PHY_INTERFACE_MODE_RGMII true).clk_enabled :=
  ((c10_frame ClkEnv.ok [GmacOp.op_init, GmacOp.op_fix 100, GmacOp.op_exit]
    (freshState phy_interface_t.PHY_INTERFACE_MODE_RGMII true)).2.2.2.2 (by decide)).1

end DwmacSunxi
